import Mathlib

/-
Verification of the IFS325 irrigation backend (src/backend/ifs325grp2_backend.py)
against its natural-language specification.

Shallow embedding conventions:
* Timestamps are `Int` seconds; analog sensor values are `ℚ` (the Python code
  uses floats, but every claim is about order comparisons, never rounding).
* JSON payload values that the code merges into state without validating are
  modelled by `JVal` (number or string), because the code stores the raw
  payload value and only later fails when a non-number reaches a numeric
  operation (the `moisture:.1f` f-string / threshold comparisons).
* Side effects are accumulated in the `Sys` record: MQTT actuator publishes
  (`published`), audit records (`audits`), alert creations (`alerts`), and the
  count of exceptions swallowed by `on_message`'s handler (`handler_errors`).
* The single `threading.Timer` for auto shut-off is modelled as
  `auto_off_timer : Option Int`, holding the absolute deadline of the live
  timer; `fire_auto_off t` delivers the expiry event at time `t`.
-/

namespace IFS

/-- A JSON scalar as it may arrive in an MQTT telemetry payload: the code
stores these unvalidated, so state fields fed from the payload have this
type. -/
inductive JVal
  | num (q : ℚ)
  | str (s : String)
deriving DecidableEq

/-- config.ALERT_COOLDOWN_CRITICAL (seconds). -/
def ALERT_COOLDOWN_CRITICAL : Int := 3600

/-- config.ALERT_COOLDOWN_INFO (seconds). -/
def ALERT_COOLDOWN_INFO : Int := 600

/-- The `Database._state` dictionary of the backend (the fields the claims
touch; dashboard-only fields `last_flow_rate`, `last_flow_rate_check` are
omitted as no code under verification reads them). -/
structure ControlState where
  pump_is_on : Bool
  last_known_flow_lpm : JVal
  last_known_moisture : JVal
  automated_mode_enabled : Bool
  critical_low_threshold : ℚ
  critical_high_threshold : ℚ
  total_flow : JVal
  current_cycle_volume_l : JVal
  manual_override_active : Bool
  manual_override_state : Option String
  allow_manual_override_at_any_moisture : Bool
  current_schedule_name : Option String
  schedule_end_time : Option Int
  last_critical_low_alert : Option Int
  last_critical_high_alert : Option Int
  last_normal_alert : Option Int
deriving DecidableEq

/-- One `oracle.create_alert` call: the alert type and severity, plus the
mode / moisture tags the code interpolates into the message text (absent
when the message carries no such tag). -/
structure Alert where
  atype : String
  severity : String
  mode : Option String
  moist : Option JVal
deriving DecidableEq

/-- The backend's mutable world: the shared `db` state, the auto-off timer
deadline, and the externally observable effect logs. -/
structure Sys where
  db : ControlState
  auto_off_timer : Option Int
  published : List String
  audits : List String
  alerts : List Alert
  handler_errors : Nat
deriving DecidableEq

/-- Python truthiness of an `Optional[str]` field (`None` and `""` are
falsy). -/
def truthyStr : Option String → Bool
  | none => false
  | some s => s != ""

/-- get_current_mode (lines 516-525). -/
def get_current_mode (db : ControlState) : String :=
  if db.manual_override_active then "MANUAL"
  else if truthyStr db.current_schedule_name then "SCHEDULED"
  else if db.automated_mode_enabled then "AUTOMATED"
  else "IDLE"

/-- should_send_alert (lines 528-536): `last_alert_time` is the stored
`db.get(alert_key)` value, `now` the current time in seconds. -/
def should_send_alert (last_alert_time : Option Int) (now : Int)
    (cooldown_seconds : Int) : Bool :=
  match last_alert_time with
  | none => true
  | some t => decide (cooldown_seconds ≤ now - t)

/-- turn_pump_on (lines 707-735). `pump_auto_off_seconds` is
`config.PUMP_AUTO_OFF_MINUTES * 60`; `now` is the wall-clock time at the
call, so the freshly armed timer's deadline is `now + pump_auto_off_seconds`.
Arming cancels any previously outstanding timer (the `auto_off_timer_lock`
block). -/
def turn_pump_on (pump_auto_off_seconds : Int) (now : Int) (source : String)
    (s : Sys) : Sys :=
  if s.db.pump_is_on then s
  else
    { s with
      audits := s.audits ++ [source],
      published := s.published ++ ["ON"],
      db := { s.db with pump_is_on := true },
      auto_off_timer := some (now + pump_auto_off_seconds) }

/-- turn_pump_off (lines 738-759): cancels the outstanding timer and zeroes
the flow reading. -/
def turn_pump_off (source : String) (s : Sys) : Sys :=
  if s.db.pump_is_on then
    { s with
      audits := s.audits ++ [source],
      published := s.published ++ ["OFF"],
      db := { s.db with pump_is_on := false, last_known_flow_lpm := JVal.num 0 },
      auto_off_timer := none }
  else s

/-- Expiry of the auto-off `threading.Timer` at time `t`: if the live timer's
deadline is `t` it fires (the timer is no longer alive afterwards) and its
callback runs `turn_pump_off "Auto-shutoff"` (line 730). -/
def fire_auto_off (t : Int) (s : Sys) : Sys :=
  match s.auto_off_timer with
  | some d =>
      if d = t then turn_pump_off "Auto-shutoff" { s with auto_off_timer := none }
      else s
  | none => s

/-- A decoded MQTT telemetry payload: each field is present (`some`) or
absent (`none`); present fields carry an unvalidated JSON scalar.
`pump_status` is compared to `"ON"` only, so it is kept as an optional
string (a non-string JSON value compares unequal to `"ON"` exactly like an
absent field). -/
structure Payload where
  flow_rate : Option JVal
  pump_status : Option String
  moisture : Option JVal
  total_flow : Option JVal
  cycle_usage : Option JVal
deriving DecidableEq

/-- The `db.update(...)` merge at lines 547-553 of on_message: flow defaults
to 0, moisture / total_flow keep the previous value when absent,
cycle_usage defaults to 0, and `pump_is_on` is set from the payload's
reported status. -/
def merge_sample (db : ControlState) (p : Payload) : ControlState :=
  { db with
    last_known_flow_lpm := p.flow_rate.getD (JVal.num 0),
    pump_is_on := p.pump_status == some "ON",
    last_known_moisture := p.moisture.getD db.last_known_moisture,
    total_flow := p.total_flow.getD db.total_flow,
    current_cycle_volume_l := p.cycle_usage.getD (JVal.num 0) }

/-- The zone names used below. -/
inductive Zone
  | CRITICAL_LOW
  | NORMAL
  | CRITICAL_HIGH
deriving DecidableEq

/-- The moisture classification chain of on_message (lines 576-619):
`if moisture < critical_low` / `elif critical_low <= moisture <= critical_high`
/ `elif moisture > critical_high`; `none` is the (unreachable for
`critical_low < critical_high`) fall-through where no branch runs. -/
def classify_zone (moisture critical_low critical_high : ℚ) : Option Zone :=
  if moisture < critical_low then some Zone.CRITICAL_LOW
  else if critical_low ≤ moisture ∧ moisture ≤ critical_high then some Zone.NORMAL
  else if moisture > critical_high then some Zone.CRITICAL_HIGH
  else none

/-- The moisture-monitoring section of on_message (lines 576-619): per zone,
emit the zone alert if the cooldown permits (recording the firing), then
reset the other two zones' trackers. -/
def moisture_monitor (now : Int) (current_mode : String)
    (moisture critical_low critical_high : ℚ) (s : Sys) : Sys :=
  if moisture < critical_low then
    let s1 :=
      if should_send_alert s.db.last_critical_low_alert now ALERT_COOLDOWN_CRITICAL then
        { s with
          alerts := s.alerts ++
            [{ atype := "CRITICAL_LOW_MOISTURE", severity := "CRITICAL",
               mode := some current_mode, moist := some (JVal.num moisture) }],
          db := { s.db with last_critical_low_alert := some now } }
      else s
    { s1 with db := { s1.db with last_normal_alert := none,
                                 last_critical_high_alert := none } }
  else if critical_low ≤ moisture ∧ moisture ≤ critical_high then
    let s1 :=
      if should_send_alert s.db.last_normal_alert now ALERT_COOLDOWN_INFO then
        { s with
          alerts := s.alerts ++
            [{ atype := "NORMAL_MOISTURE", severity := "INFO",
               mode := some current_mode, moist := some (JVal.num moisture) }],
          db := { s.db with last_normal_alert := some now } }
      else s
    { s1 with db := { s1.db with last_critical_low_alert := none,
                                 last_critical_high_alert := none } }
  else if moisture > critical_high then
    let s1 :=
      if should_send_alert s.db.last_critical_high_alert now ALERT_COOLDOWN_CRITICAL then
        { s with
          alerts := s.alerts ++
            [{ atype := "CRITICAL_HIGH_MOISTURE", severity := "CRITICAL",
               mode := some current_mode, moist := some (JVal.num moisture) }],
          db := { s.db with last_critical_high_alert := some now } }
      else s
    { s1 with db := { s1.db with last_normal_alert := none,
                                 last_critical_low_alert := none } }
  else s

/-- The manual-override-enforcement / automated-control section of
on_message (lines 637-667): `manual_override_active`,
`manual_override_state` and `new_pump_status` are the local variables the
code captured before this point; `pump_on` in the automated branch re-reads
the current state. -/
def manual_or_automated_control (pump_auto_off_seconds now : Int)
    (manual_override_active : Bool) (manual_override_state : Option String)
    (new_pump_status : Bool) (moisture critical_low critical_high : ℚ)
    (s : Sys) : Sys :=
  if manual_override_active ∧ truthyStr manual_override_state = true then
    let desired_state_on : Bool := manual_override_state == some "ON"
    if desired_state_on = true ∧ new_pump_status = false then
      turn_pump_on pump_auto_off_seconds now "Manual Override - Enforcement" s
    else if desired_state_on = false ∧ new_pump_status = true then
      turn_pump_off "Manual Override - Enforcement" s
    else s
  else if s.db.automated_mode_enabled then
    let pump_on := s.db.pump_is_on
    if moisture < critical_low ∧ pump_on = false then
      turn_pump_on pump_auto_off_seconds now "Automated - Critical Low Moisture" s
    else if (critical_low ≤ moisture ∧ moisture ≤ critical_high) ∧ pump_on = true then
      turn_pump_off "Automated - Normal Moisture Reached" s
    else if moisture > critical_high ∧ pump_on = true then
      turn_pump_off "Automated - Critical High Moisture" s
    else s
  else s

/-- on_message (lines 539-695). The whole body runs under
`try ... except`, so the function is total: when the merged moisture value
is not a number, the first numeric use of it (the `moisture:.1f` f-string
at line 569) raises, the handler logs the error (`handler_errors` grows)
and the sample is dropped — with the lines-547-553 merge already applied.
On the numeric path the steps are: moisture monitoring, emergency
interlock (early return), manual-override enforcement / automated control,
pump state change alerts, final broadcast (broadcasts carry no claim
content and are not logged here). -/
def on_message (pump_auto_off_seconds : Int) (now : Int) (p : Payload)
    (s : Sys) : Sys :=
  let old_pump_status := s.db.pump_is_on
  let new_pump_status : Bool := p.pump_status == some "ON"
  let s := { s with db := merge_sample s.db p }
  match s.db.last_known_moisture with
  | JVal.str _ => { s with handler_errors := s.handler_errors + 1 }
  | JVal.num moisture =>
    let critical_low := s.db.critical_low_threshold
    let critical_high := s.db.critical_high_threshold
    let manual_override_active := s.db.manual_override_active
    let manual_override_state := s.db.manual_override_state
    let allow_override_at_any_moisture := s.db.allow_manual_override_at_any_moisture
    let current_mode := get_current_mode s.db
    let s := moisture_monitor now current_mode moisture critical_low critical_high s
    if moisture > critical_high ∧ allow_override_at_any_moisture = false ∧
        new_pump_status = true then
      let s := turn_pump_off "Emergency - Soil Too Wet" s
      { s with db := { s.db with manual_override_active := false,
                                 manual_override_state := none } }
    else
      let s := manual_or_automated_control pump_auto_off_seconds now
        manual_override_active manual_override_state new_pump_status
        moisture critical_low critical_high s
      if old_pump_status != new_pump_status then
        if new_pump_status then
          { s with alerts := s.alerts ++
              [{ atype := "PUMP_ON", severity := "INFO",
                 mode := some current_mode, moist := some (JVal.num moisture) }] }
        else
          let s := { s with alerts := s.alerts ++
              [{ atype := "PUMP_OFF", severity := "INFO",
                 mode := some current_mode, moist := some (JVal.num moisture) }] }
          if truthyStr s.db.current_schedule_name then
            { s with db := { s.db with current_schedule_name := none,
                                       schedule_end_time := none } }
          else s
      else s

/-- POST /pump/on (post_pump_on, lines 1144-1171): unconditionally records
the manual override and clears schedule bookkeeping, creates the
MANUAL_OVERRIDE_ON alert (its message carries the current moisture reading,
no mode tag), then calls turn_pump_on. -/
def post_pump_on (pump_auto_off_seconds : Int) (now : Int) (s : Sys) : Sys :=
  let s := { s with db := { s.db with
    manual_override_active := true,
    manual_override_state := some "ON",
    current_schedule_name := none,
    schedule_end_time := none } }
  let s := { s with alerts := s.alerts ++
    [{ atype := "MANUAL_OVERRIDE_ON", severity := "INFO",
       mode := none, moist := some s.db.last_known_moisture }] }
  turn_pump_on pump_auto_off_seconds now "Manual Control" s

/-- POST /pump/off (post_pump_off, lines 1174-1200), symmetric to
post_pump_on; the MANUAL_OVERRIDE_OFF alert message carries no tags. -/
def post_pump_off (s : Sys) : Sys :=
  let s := { s with db := { s.db with
    manual_override_active := true,
    manual_override_state := some "OFF",
    current_schedule_name := none,
    schedule_end_time := none } }
  let s := { s with alerts := s.alerts ++
    [{ atype := "MANUAL_OVERRIDE_OFF", severity := "INFO",
       mode := none, moist := none }] }
  turn_pump_off "Manual Control" s

/-- One APScheduler cron job as registered by the backend: its id
(`on_db_<id>` / `off_db_<id>`), the `day_of_week` expression, and the
hour/minute of the trigger. (Job names and callbacks carry no claim
content.) -/
structure Job where
  jid : String
  day_of_week : String
  hour : Nat
  minute : Nat
deriving DecidableEq

/-- scheduler.add_job with replace_existing=True: any job with the same id
is replaced. -/
def add_job (sched : List Job) (j : Job) : List Job :=
  (sched.filter fun x => x.jid != j.jid) ++ [j]

/-- scheduler.remove_job wrapped in try/except (absence is not an error). -/
def remove_job (sched : List Job) (jid : String) : List Job :=
  sched.filter fun x => x.jid != jid

/-- A schedule record as `_add_or_update_job_in_scheduler` receives it from
the store: `id` already stringified, `is_active` the 0/1 integer of the
database, `repeat_days` optional (the code reads it with default `""`). -/
structure ScheduleData where
  id : String
  duration_min : Nat
  start_time_of_day : String
  is_active : Int
  repeat_days : Option String
deriving DecidableEq

/-- Python `str.split(sep)` for a one-character separator, over the char
list (kernel-reducible; `"a:b".split(':') = ["a","b"]`, `"".split(':') =
[""]`). -/
def splitOnChar (c : Char) : List Char → List (List Char)
  | [] => [[]]
  | x :: xs =>
    match splitOnChar c xs with
    | [] => if x = c then [[], []] else [[x]]
    | y :: ys => if x = c then [] :: y :: ys else (x :: y) :: ys

/-- Python `int(str)` restricted to the non-negative decimal numerals that
occur in HH:MM:SS fields; anything else raises (returns `none`). -/
def toNatDigits? (l : List Char) : Option Nat :=
  if l.isEmpty then none
  else if l.all fun c => c.isDigit then
    some (l.foldl (fun acc c => acc * 10 + (c.toNat - 48)) 0)
  else none

/-- Python `c in s` for a single character. -/
def strContainsChar (s : String) (c : Char) : Bool :=
  s.data.contains c

/-- Python `str.lower()` (ASCII, which is all the repeat-day encodings
use). -/
def strToLower (s : String) : String :=
  String.mk (s.data.map Char.toLower)

/-- `list(map(int, start_time_of_day.split(':')))` followed by the
`datetime.replace(hour=tp[0], minute=tp[1], second=tp[2])` indexing: all
colon-separated parts must parse as (non-negative) integers and at least
three must exist, else the surrounding try/except swallows the error.
Extra parts beyond the first three are ignored, as in the source. -/
def parse_time (t : String) : Option (Nat × Nat × Nat) :=
  let parts := (splitOnChar (Char.ofNat 58) t.data).map toNatDigits?
  if parts.all fun q => q.isSome then
    match parts with
    | some h :: some m :: some sec :: _ => some (h, m, sec)
    | _ => none
  else none

/-- The `-` character (the literal-date separator tested by
`'-' not in repeat_days_str` at line 784). -/
def dashChar : Char := Char.ofNat 45

/-- _remove_job_from_scheduler (lines 824-831): removes both trigger ids,
ignoring absence. -/
def _remove_job_from_scheduler (sched : List Job) (schedule_id : String) :
    List Job :=
  let job_id_base := "db_" ++ schedule_id
  remove_job (remove_job sched ("on_" ++ job_id_base)) ("off_" ++ job_id_base)

/-- _add_or_update_job_in_scheduler (lines 762-821). The time is parsed and
validated (`datetime.replace` raises for hour ≥ 24 / minute ≥ 60 /
second ≥ 60) *before* the removal at line 778, so an unparseable record
leaves the scheduler untouched. Then existing triggers are removed, and
only an active record whose `repeat_days` is non-empty and contains no
`-` (i.e. is a day-of-week set, not a literal date) registers the ON job
at the start time and the OFF job at start + duration, with
`datetime + timedelta` minute/hour arithmetic (mod 24 h). -/
def _add_or_update_job_in_scheduler (sched : List Job) (d : ScheduleData) :
    List Job :=
  match parse_time d.start_time_of_day with
  | none => sched
  | some (h, m, sec) =>
    if h ≤ 23 ∧ m ≤ 59 ∧ sec ≤ 59 then
      let job_id_base := "db_" ++ d.id
      let sched1 := _remove_job_from_scheduler sched d.id
      if d.is_active = 1 then
        let repeat_days_str := d.repeat_days.getD ""
        if repeat_days_str != "" ∧ strContainsChar repeat_days_str dashChar = false then
          let total := h * 60 + m + d.duration_min
          let sched2 := add_job sched1
            { jid := "on_" ++ job_id_base, day_of_week := strToLower repeat_days_str,
              hour := h, minute := m }
          add_job sched2
            { jid := "off_" ++ job_id_base, day_of_week := strToLower repeat_days_str,
              hour := total / 60 % 24, minute := total % 60 }
        else sched1
      else sched1
    else sched

/-- The PUMP_ON / PUMP_OFF transition alerts among a list of emitted
alerts. -/
def pumpTransitionAlerts (l : List Alert) : List Alert :=
  l.filter fun a => a.atype == "PUMP_ON" || a.atype == "PUMP_OFF"

/-- The backend's initial `Database._state` (lines 108-134), restricted to
the modelled fields. -/
def baseDb : ControlState :=
  { pump_is_on := false
    last_known_flow_lpm := JVal.num 0
    last_known_moisture := JVal.num 50
    automated_mode_enabled := true
    critical_low_threshold := 40
    critical_high_threshold := 80
    total_flow := JVal.num 0
    current_cycle_volume_l := JVal.num 0
    manual_override_active := false
    manual_override_state := none
    allow_manual_override_at_any_moisture := true
    current_schedule_name := none
    schedule_end_time := none
    last_critical_low_alert := none
    last_critical_high_alert := none
    last_normal_alert := none }

/-- Fresh system: initial state, no timer, no effects yet. -/
def baseSys : Sys :=
  { db := baseDb, auto_off_timer := none, published := [], audits := []
    alerts := [], handler_errors := 0 }

/-- Telemetry sample: moisture 30 %, pump reported OFF. -/
def pOff30 : Payload :=
  { flow_rate := some (JVal.num 1), pump_status := some "OFF"
    moisture := some (JVal.num 30), total_flow := none, cycle_usage := none }

/-- Telemetry sample: moisture 41 %, pump reported ON. -/
def pOn41 : Payload :=
  { flow_rate := some (JVal.num 1), pump_status := some "ON"
    moisture := some (JVal.num 41), total_flow := none, cycle_usage := none }

/-- Telemetry sample: moisture 50 %, pump reported OFF. -/
def pOff50 : Payload :=
  { flow_rate := some (JVal.num 1), pump_status := some "OFF"
    moisture := some (JVal.num 50), total_flow := none, cycle_usage := none }

/-- Telemetry sample: moisture 90 %, pump reported ON. -/
def pOn90 : Payload :=
  { flow_rate := some (JVal.num 1), pump_status := some "ON"
    moisture := some (JVal.num 90), total_flow := none, cycle_usage := none }

/-- A malformed telemetry sample: valid JSON whose moisture field is the
string `"wet"` instead of a number. -/
def pBadMoisture : Payload :=
  { flow_rate := none, pump_status := none
    moisture := some (JVal.str "wet"), total_flow := none, cycle_usage := none }

/-- System with an active manual override to ON and the safety interlock
enabled (`allow_manual_override_at_any_moisture = true`). -/
def sysManualOn : Sys :=
  { baseSys with db := { baseDb with manual_override_active := true
                                     manual_override_state := some "ON" } }

/-- System with an active manual override to ON but the safety interlock
disabled (`allow_manual_override_at_any_moisture = false`). -/
def sysManualOnNoInterlock : Sys :=
  { baseSys with db := { baseDb with manual_override_active := true
                                     manual_override_state := some "ON"
                                     allow_manual_override_at_any_moisture := false } }

/-- The §8 schedule record: start 06:00:00, 15 minutes, mon/wed/fri,
active. -/
def recMonWedFri : ScheduleData :=
  { id := "7", duration_min := 15, start_time_of_day := "06:00:00"
    is_active := 1, repeat_days := some "mon,wed,fri" }

/-- The same record as a one-shot (repeat_days is a literal calendar
date). -/
def recOneShot : ScheduleData :=
  { recMonWedFri with repeat_days := some "2025-01-01" }

/-! Helper lemmas: which fields each control primitive leaves untouched. -/

theorem turn_pump_on_misc (D now : Int) (src : String) (s : Sys) :
    (turn_pump_on D now src s).alerts = s.alerts ∧
    (turn_pump_on D now src s).handler_errors = s.handler_errors ∧
    (turn_pump_on D now src s).db.manual_override_active = s.db.manual_override_active ∧
    (turn_pump_on D now src s).db.manual_override_state = s.db.manual_override_state ∧
    (turn_pump_on D now src s).db.current_schedule_name = s.db.current_schedule_name ∧
    (turn_pump_on D now src s).db.schedule_end_time = s.db.schedule_end_time := by
  unfold turn_pump_on
  split <;> simp

theorem turn_pump_off_misc (src : String) (s : Sys) :
    (turn_pump_off src s).alerts = s.alerts ∧
    (turn_pump_off src s).handler_errors = s.handler_errors ∧
    (turn_pump_off src s).db.manual_override_active = s.db.manual_override_active ∧
    (turn_pump_off src s).db.manual_override_state = s.db.manual_override_state ∧
    (turn_pump_off src s).db.current_schedule_name = s.db.current_schedule_name ∧
    (turn_pump_off src s).db.schedule_end_time = s.db.schedule_end_time := by
  unfold turn_pump_off
  split <;> simp

theorem moisture_monitor_misc (now : Int) (mode : String) (m lo hi : ℚ)
    (s : Sys) :
    (moisture_monitor now mode m lo hi s).db.pump_is_on = s.db.pump_is_on ∧
    (moisture_monitor now mode m lo hi s).db.manual_override_active = s.db.manual_override_active ∧
    (moisture_monitor now mode m lo hi s).db.manual_override_state = s.db.manual_override_state ∧
    (moisture_monitor now mode m lo hi s).db.automated_mode_enabled = s.db.automated_mode_enabled ∧
    (moisture_monitor now mode m lo hi s).db.current_schedule_name = s.db.current_schedule_name ∧
    (moisture_monitor now mode m lo hi s).db.schedule_end_time = s.db.schedule_end_time ∧
    (moisture_monitor now mode m lo hi s).published = s.published ∧
    (moisture_monitor now mode m lo hi s).audits = s.audits ∧
    (moisture_monitor now mode m lo hi s).auto_off_timer = s.auto_off_timer ∧
    (moisture_monitor now mode m lo hi s).handler_errors = s.handler_errors := by
  unfold moisture_monitor
  split_ifs <;> simp

theorem moisture_monitor_pumpTransitionAlerts (now : Int) (mode : String)
    (m lo hi : ℚ) (s : Sys) :
    pumpTransitionAlerts (moisture_monitor now mode m lo hi s).alerts =
      pumpTransitionAlerts s.alerts := by
  unfold moisture_monitor pumpTransitionAlerts
  split_ifs <;> simp

theorem manual_or_automated_control_misc (D now : Int) (moa : Bool)
    (mos : Option String) (nps : Bool) (m lo hi : ℚ) (s : Sys) :
    (manual_or_automated_control D now moa mos nps m lo hi s).alerts = s.alerts ∧
    (manual_or_automated_control D now moa mos nps m lo hi s).handler_errors = s.handler_errors ∧
    (manual_or_automated_control D now moa mos nps m lo hi s).db.current_schedule_name = s.db.current_schedule_name ∧
    (manual_or_automated_control D now moa mos nps m lo hi s).db.schedule_end_time = s.db.schedule_end_time := by
  unfold manual_or_automated_control turn_pump_on turn_pump_off
  dsimp only
  split_ifs <;> simp

/-- Claim C4: `turn_pump_on` is idempotent — with the pump already on it
returns unchanged (no actuator publish, no audit record, no timer change),
so two consecutive calls produce exactly one actuator publish and one
audit record; symmetrically `turn_pump_off` is a no-op when the pump is
already off. -/
theorem c4_pump_command_idempotence :
    (∀ (D now : Int) (src : String) (s : Sys),
       s.db.pump_is_on = true → turn_pump_on D now src s = s)
    ∧ (∀ (src : String) (s : Sys),
       s.db.pump_is_on = false → turn_pump_off src s = s)
    ∧ (∀ (D n1 n2 : Int) (src1 src2 : String) (s : Sys),
       s.db.pump_is_on = false →
         (turn_pump_on D n2 src2 (turn_pump_on D n1 src1 s)).published =
             s.published ++ ["ON"]
         ∧ (turn_pump_on D n2 src2 (turn_pump_on D n1 src1 s)).audits =
             s.audits ++ [src1]
         ∧ (turn_pump_on D n2 src2 (turn_pump_on D n1 src1 s)).auto_off_timer =
             some (n1 + D))
    ∧ (∀ (src1 src2 : String) (s : Sys),
       s.db.pump_is_on = true →
         (turn_pump_off src2 (turn_pump_off src1 s)).published =
             s.published ++ ["OFF"]
         ∧ (turn_pump_off src2 (turn_pump_off src1 s)).audits =
             s.audits ++ [src1]) := by
  refine ⟨?_, ?_, ?_, ?_⟩ <;> intros <;> simp_all [turn_pump_on, turn_pump_off]

/-- Witness for C4 at the fresh system: the double-on sequence publishes one
ON and audits once, the second on-call is a no-op, and turn_pump_off on an
already-off pump is the identity. -/
theorem c4_pump_command_idempotence_witness :
    baseSys.db.pump_is_on = false
    ∧ (turn_pump_on 600 1 "B" (turn_pump_on 600 0 "A" baseSys)).published =
        baseSys.published ++ ["ON"]
    ∧ (turn_pump_on 600 1 "B" (turn_pump_on 600 0 "A" baseSys)).audits =
        baseSys.audits ++ ["A"]
    ∧ (turn_pump_on 600 0 "A" baseSys).db.pump_is_on = true
    ∧ turn_pump_on 600 2 "C" (turn_pump_on 600 0 "A" baseSys) =
        turn_pump_on 600 0 "A" baseSys
    ∧ turn_pump_off "D" baseSys = baseSys := by
  refine ⟨by decide, ?_, ?_, by decide, ?_, ?_⟩
  · exact (c4_pump_command_idempotence.2.2.1 600 0 1 "A" "B" baseSys (by decide)).1
  · exact (c4_pump_command_idempotence.2.2.1 600 0 1 "A" "B" baseSys (by decide)).2.1
  · exact c4_pump_command_idempotence.1 600 2 "C" (turn_pump_on 600 0 "A" baseSys)
      (by decide)
  · exact c4_pump_command_idempotence.2.1 "D" baseSys (by decide)

/-- Claim C6: `should_send_alert` fires when no prior firing is recorded;
after a firing at `t` with cooldown `C` it refuses at every time strictly
before `t + C` and fires at every time from `t + C` on. -/
theorem c6_alert_cooldown (t C now : Int) :
    should_send_alert none now C = true
    ∧ (now < t + C → should_send_alert (some t) now C = false)
    ∧ (t + C ≤ now → should_send_alert (some t) now C = true) := by
  refine ⟨rfl, ?_, ?_⟩ <;> intro h <;> simp [should_send_alert] <;> omega

/-- Witness for C6 with the critical cooldown 3600 s: first call fires, the
call at `t + C - 1` is refused, the call at `t + C` fires. -/
theorem c6_alert_cooldown_witness :
    should_send_alert none 0 3600 = true
    ∧ ((3599 : Int) < 0 + 3600 ∧ should_send_alert (some 0) 3599 3600 = false)
    ∧ ((0 : Int) + 3600 ≤ 3600 ∧ should_send_alert (some 0) 3600 3600 = true) :=
  ⟨(c6_alert_cooldown 0 3600 0).1,
   ⟨by decide, (c6_alert_cooldown 0 3600 3599).2.1 (by decide)⟩,
   ⟨by decide, (c6_alert_cooldown 0 3600 3600).2.2 (by decide)⟩⟩

/-- Claim C7: for `critical_low < critical_high` the moisture
classification chain of on_message is a total, non-overlapping partition:
CRITICAL_LOW exactly below `critical_low`, NORMAL exactly on
`[critical_low, critical_high]` (both boundaries inclusive), CRITICAL_HIGH
exactly above `critical_high`, and no moisture value falls through. -/
theorem c7_zone_partition (m lo hi : ℚ) (hlt : lo < hi) :
    (classify_zone m lo hi = some Zone.CRITICAL_LOW ↔ m < lo)
    ∧ (classify_zone m lo hi = some Zone.NORMAL ↔ lo ≤ m ∧ m ≤ hi)
    ∧ (classify_zone m lo hi = some Zone.CRITICAL_HIGH ↔ hi < m)
    ∧ classify_zone m lo hi ≠ none := by
  unfold classify_zone
  split_ifs with h1 h2 h3
  · refine ⟨by simp [h1], ?_, ?_, by simp⟩
    · simp only [Option.some.injEq]
      constructor
      · intro h; cases h
      · rintro ⟨hle, -⟩; linarith
    · simp only [Option.some.injEq]
      constructor
      · intro h; cases h
      · intro h; linarith
  · refine ⟨?_, by simp [h2], ?_, by simp⟩
    · simp only [Option.some.injEq]
      constructor
      · intro h; cases h
      · intro h; linarith
    · simp only [Option.some.injEq]
      constructor
      · intro h; cases h
      · intro h; rcases h2 with ⟨-, hle⟩; linarith
  · refine ⟨?_, ?_, by simp [h3], by simp⟩
    · simp only [Option.some.injEq]
      constructor
      · intro h; cases h
      · intro h; linarith
    · simp only [Option.some.injEq]
      constructor
      · intro h; cases h
      · rintro ⟨-, hle⟩; linarith
  · have hge : lo ≤ m := le_of_not_lt h1
    have hhi : hi < m := by
      rcases lt_or_le hi m with h | h
      · exact h
      · exact absurd ⟨hge, h⟩ h2
    exact absurd hhi h3

/-- Witness for C7 with thresholds 40/80: moisture 39 is CRITICAL_LOW, 40
and 80 are NORMAL, 81 is CRITICAL_HIGH. -/
theorem c7_zone_partition_witness :
    (40 : ℚ) < 80
    ∧ classify_zone 39 40 80 = some Zone.CRITICAL_LOW
    ∧ classify_zone 40 40 80 = some Zone.NORMAL
    ∧ classify_zone 80 40 80 = some Zone.NORMAL
    ∧ classify_zone 81 40 80 = some Zone.CRITICAL_HIGH :=
  ⟨by norm_num,
   (c7_zone_partition 39 40 80 (by norm_num)).1.mpr (by norm_num),
   (c7_zone_partition 40 40 80 (by norm_num)).2.1.mpr (by norm_num),
   (c7_zone_partition 80 40 80 (by norm_num)).2.1.mpr (by norm_num),
   (c7_zone_partition 81 40 80 (by norm_num)).2.2.1.mpr (by norm_num)⟩

/-- Claim C10: POST /pump/on unconditionally switches the system into
manual-override mode (`manual_override_active = true`,
`manual_override_state = "ON"`, schedule bookkeeping cleared) — also when
the pump is already on and the pump command is ignored as a duplicate
(no actuator publish) — and symmetrically for POST /pump/off. -/
theorem c10_manual_endpoints_set_override (D now : Int) (s : Sys) :
    ((post_pump_on D now s).db.manual_override_active = true
     ∧ (post_pump_on D now s).db.manual_override_state = some "ON"
     ∧ (post_pump_on D now s).db.current_schedule_name = none
     ∧ (post_pump_on D now s).db.schedule_end_time = none
     ∧ (s.db.pump_is_on = true → (post_pump_on D now s).published = s.published))
    ∧ ((post_pump_off s).db.manual_override_active = true
     ∧ (post_pump_off s).db.manual_override_state = some "OFF"
     ∧ (post_pump_off s).db.current_schedule_name = none
     ∧ (post_pump_off s).db.schedule_end_time = none
     ∧ (s.db.pump_is_on = false → (post_pump_off s).published = s.published)) := by
  unfold post_pump_on post_pump_off turn_pump_on turn_pump_off
  dsimp only
  split_ifs <;> simp_all

/-- Witness for C10: with the pump already on, POST /pump/on still sets the
override fields and issues no actuator publish; POST /pump/off on the
fresh (pump-off) system likewise. -/
theorem c10_manual_endpoints_set_override_witness :
    (turn_pump_on 600 0 "A" baseSys).db.pump_is_on = true
    ∧ (post_pump_on 600 1 (turn_pump_on 600 0 "A" baseSys)).published =
        (turn_pump_on 600 0 "A" baseSys).published
    ∧ (post_pump_on 600 1 (turn_pump_on 600 0 "A" baseSys)).db.manual_override_active = true
    ∧ (post_pump_on 600 1 (turn_pump_on 600 0 "A" baseSys)).db.manual_override_state = some "ON"
    ∧ baseSys.db.pump_is_on = false
    ∧ (post_pump_off baseSys).published = baseSys.published
    ∧ (post_pump_off baseSys).db.manual_override_state = some "OFF" := by
  have h1 := c10_manual_endpoints_set_override 600 1 (turn_pump_on 600 0 "A" baseSys)
  have h2 := c10_manual_endpoints_set_override 600 0 baseSys
  exact ⟨by decide, h1.1.2.2.2.2 (by decide), h1.1.1, h1.1.2.1, by decide,
         h2.2.2.2.2.2 (by decide), h2.2.2.1⟩

/-- Counterexample to claim C2: with thresholds 40/80, pump turned on at the
moisture-30 sample, the claimed sequence ON, ON, OFF does not occur — at
the moisture-41 sample (which lies inside [40, 80]) the automated branch
already turns the pump off, so the state after the second sample is OFF,
not ON. -/
theorem c2_hysteresis_counterexample :
    (on_message 600 0 pOff30 baseSys).db.pump_is_on = true
    ∧ (on_message 600 1 pOn41 (on_message 600 0 pOff30 baseSys)).db.pump_is_on
        = false := by
  decide

/-- Claim C2 as amended: the sequence moisture 30 → 41 → 50 yields pump
states ON, OFF, OFF — the pump is turned off at the first sample whose
moisture lies inside [critical_low, critical_high], which is the sample
with moisture 41, and nothing further happens at moisture 50 (exactly one
automated ON audit and one automated OFF audit in total). -/
theorem c2_hysteresis_amended :
    (on_message 600 0 pOff30 baseSys).db.pump_is_on = true
    ∧ (on_message 600 0 pOff30 baseSys).audits =
        ["Automated - Critical Low Moisture"]
    ∧ (on_message 600 1 pOn41 (on_message 600 0 pOff30 baseSys)).db.pump_is_on
        = false
    ∧ (on_message 600 1 pOn41 (on_message 600 0 pOff30 baseSys)).audits =
        ["Automated - Critical Low Moisture", "Automated - Normal Moisture Reached"]
    ∧ (on_message 600 2 pOff50 (on_message 600 1 pOn41
        (on_message 600 0 pOff30 baseSys))).db.pump_is_on = false
    ∧ (on_message 600 2 pOff50 (on_message 600 1 pOn41
        (on_message 600 0 pOff30 baseSys))).audits =
        ["Automated - Critical Low Moisture", "Automated - Normal Moisture Reached"] := by
  decide

/-- Counterexample to claim C3: invoking `turn_pump_on` twice before the
first deadline expires does not leave the second deadline — the second
call hits the idempotence guard (pump already on) and returns before the
re-arm code, so the first deadline (600) stays armed: nothing fires at
time 601 and the pump is forced off at time 600. -/
theorem c3_double_arm_counterexample :
    (turn_pump_on 600 1 "second" (turn_pump_on 600 0 "first" baseSys)).auto_off_timer
        = some 600
    ∧ (turn_pump_on 600 1 "second" (turn_pump_on 600 0 "first" baseSys)).auto_off_timer
        ≠ some 601
    ∧ fire_auto_off 601 (turn_pump_on 600 1 "second" (turn_pump_on 600 0 "first" baseSys))
        = turn_pump_on 600 1 "second" (turn_pump_on 600 0 "first" baseSys)
    ∧ (fire_auto_off 600 (turn_pump_on 600 1 "second"
        (turn_pump_on 600 0 "first" baseSys))).db.pump_is_on = false := by
  decide

/-- Claim C3 as amended: at most one deadline is live at any instant (the
model's single optional deadline reflects the cancel-before-arm in the
source). A `turn_pump_on` that passes the idempotence guard (pump was off)
replaces any outstanding deadline with `t + D`; a second `turn_pump_on`
while the pump is on is a complete no-op, so the FIRST deadline, not the
second, remains armed; and if no further command occurs, the pump is
forced off exactly once, exactly at the configured auto-off duration:
nothing fires at any other time, the expiry turns the pump off and
publishes one OFF, and redelivering expiry events changes nothing. -/
theorem c3_auto_off_timer_amended (D t : Int) (src : String) (s : Sys)
    (hoff : s.db.pump_is_on = false) :
    (turn_pump_on D t src s).auto_off_timer = some (t + D)
    ∧ (∀ (t2 : Int) (src2 : String),
        turn_pump_on D t2 src2 (turn_pump_on D t src s) = turn_pump_on D t src s)
    ∧ (∀ u : Int, u ≠ t + D →
        fire_auto_off u (turn_pump_on D t src s) = turn_pump_on D t src s)
    ∧ (fire_auto_off (t + D) (turn_pump_on D t src s)).db.pump_is_on = false
    ∧ (fire_auto_off (t + D) (turn_pump_on D t src s)).published =
        (turn_pump_on D t src s).published ++ ["OFF"]
    ∧ (fire_auto_off (t + D) (turn_pump_on D t src s)).auto_off_timer = none
    ∧ (∀ v : Int, fire_auto_off v (fire_auto_off (t + D) (turn_pump_on D t src s)) =
        fire_auto_off (t + D) (turn_pump_on D t src s)) := by
  refine ⟨?_, ?_, ?_, ?_, ?_, ?_, ?_⟩ <;>
    simp_all [turn_pump_on, fire_auto_off, turn_pump_off]
  omega

/-- Witness for the amended C3 at the fresh system with a 600 s auto-off:
arming at time 0 sets deadline 600, a premature expiry event at 599 does
nothing, the expiry at 600 forces the pump off with one OFF publish, and a
redelivered expiry changes nothing. -/
theorem c3_auto_off_timer_amended_witness :
    baseSys.db.pump_is_on = false
    ∧ (turn_pump_on 600 0 "Manual Control" baseSys).auto_off_timer = some (0 + 600)
    ∧ fire_auto_off 599 (turn_pump_on 600 0 "Manual Control" baseSys) =
        turn_pump_on 600 0 "Manual Control" baseSys
    ∧ (fire_auto_off (0 + 600) (turn_pump_on 600 0 "Manual Control" baseSys)).db.pump_is_on
        = false
    ∧ (fire_auto_off (0 + 600) (turn_pump_on 600 0 "Manual Control" baseSys)).published =
        (turn_pump_on 600 0 "Manual Control" baseSys).published ++ ["OFF"]
    ∧ fire_auto_off 42 (fire_auto_off (0 + 600)
        (turn_pump_on 600 0 "Manual Control" baseSys)) =
        fire_auto_off (0 + 600) (turn_pump_on 600 0 "Manual Control" baseSys) := by
  have h := c3_auto_off_timer_amended 600 0 "Manual Control" baseSys (by decide)
  exact ⟨by decide, h.1, h.2.2.1 599 (by decide), h.2.2.2.1, h.2.2.2.2.1,
         h.2.2.2.2.2.2 42⟩

/-- Counterexample to claim C8: the JSON sample whose moisture field is the
string `"wet"` makes on_message raise (caught and logged — the handler
count grows), yet the prior ControlState is NOT retained: the merge at
lines 547-553 ran before the failure, so the state differs from the prior
state. -/
theorem c8_malformed_sample_counterexample :
    (on_message 600 0 pBadMoisture baseSys).handler_errors =
        baseSys.handler_errors + 1
    ∧ (on_message 600 0 pBadMoisture baseSys).db ≠ baseSys.db := by
  decide

/-- Claim C8 as amended: when the merged moisture value is not a number,
on_message catches the exception, logs it, and drops the sample — no
alert, publish, audit or timer action happens and subsequent samples can
still be processed (the handler is total) — but the ControlState is NOT
left unchanged: it equals the prior state with the sample's telemetry
fields already merged (flow, reported pump status, moisture, totals). -/
theorem c8_malformed_sample_amended (D now : Int) (p : Payload) (s : Sys)
    (str : String)
    (hbad : (merge_sample s.db p).last_known_moisture = JVal.str str) :
    on_message D now p s =
      { s with db := merge_sample s.db p,
               handler_errors := s.handler_errors + 1 } := by
  unfold on_message
  dsimp only
  rw [hbad]

/-- Witness for the amended C8: concrete malformed sample against the fresh
system. -/
theorem c8_malformed_sample_amended_witness :
    (merge_sample baseSys.db pBadMoisture).last_known_moisture = JVal.str "wet"
    ∧ on_message 600 0 pBadMoisture baseSys =
        { baseSys with db := merge_sample baseSys.db pBadMoisture,
                       handler_errors := baseSys.handler_errors + 1 } :=
  ⟨by decide, c8_malformed_sample_amended 600 0 pBadMoisture baseSys "wet" (by decide)⟩

/-! Helper lemmas for the schedule compiler. -/

theorem add_job_eq_append (L : List Job) (j : Job)
    (h : ∀ x ∈ L, x.jid ≠ j.jid) : add_job L j = L ++ [j] := by
  unfold add_job
  rw [List.filter_eq_self.mpr]
  intro a ha
  simpa [bne_iff_ne] using h a ha

theorem base_no_trigger_ids (sched : List Job) (i : String) :
    ∀ x ∈ _remove_job_from_scheduler sched i,
      x.jid ≠ "on_" ++ ("db_" ++ i) ∧ x.jid ≠ "off_" ++ ("db_" ++ i) := by
  intro x hx
  unfold _remove_job_from_scheduler remove_job at hx
  dsimp only at hx
  rw [List.mem_filter] at hx
  obtain ⟨hx1, h2⟩ := hx
  rw [List.mem_filter] at hx1
  obtain ⟨-, h1⟩ := hx1
  exact ⟨by simpa [bne_iff_ne] using h1, by simpa [bne_iff_ne] using h2⟩

theorem on_jid_ne_off_jid (i : String) :
    ("on_" ++ ("db_" ++ i) : String) ≠ "off_" ++ ("db_" ++ i) := by
  intro hEq
  have h2 := congrArg String.length hEq
  simp only [String.length_append] at h2
  have e1 : ("on_" : String).length = 3 := rfl
  have e2 : ("off_" : String).length = 4 := rfl
  omega

/-- Claim C5: compiling a schedule record first removes any existing
triggers for the record's id; then, when the record is active and its
repeat_days is a day-of-week set (non-empty, no literal-date separator),
exactly two triggers are registered — the ON trigger at
`start_time_of_day` and the OFF trigger at `start_time_of_day +
duration_minutes` with minute/hour arithmetic rolling over (mod 24 h),
both with the same day set — otherwise (inactive record, or repeat_days a
literal calendar date) zero triggers are registered; and decompiling
removes both trigger ids without error even when absent (the remaining
jobs carry neither id). -/
theorem c5_schedule_compilation (sched : List Job) (d : ScheduleData)
    (hr mi se : Nat)
    (hparse : parse_time d.start_time_of_day = some (hr, mi, se))
    (hhr : hr ≤ 23) (hmi : mi ≤ 59) (hse : se ≤ 59) :
    ((d.is_active = 1 ∧ (d.repeat_days.getD "" != "") = true ∧
        strContainsChar (d.repeat_days.getD "") dashChar = false) →
      _add_or_update_job_in_scheduler sched d =
        _remove_job_from_scheduler sched d.id ++
          [{ jid := "on_" ++ ("db_" ++ d.id),
             day_of_week := strToLower (d.repeat_days.getD ""),
             hour := hr, minute := mi },
           { jid := "off_" ++ ("db_" ++ d.id),
             day_of_week := strToLower (d.repeat_days.getD ""),
             hour := (hr * 60 + mi + d.duration_min) / 60 % 24,
             minute := (hr * 60 + mi + d.duration_min) % 60 }])
    ∧ (¬(d.is_active = 1 ∧ (d.repeat_days.getD "" != "") = true ∧
          strContainsChar (d.repeat_days.getD "") dashChar = false) →
      _add_or_update_job_in_scheduler sched d =
        _remove_job_from_scheduler sched d.id)
    ∧ (∀ x ∈ _remove_job_from_scheduler sched d.id,
        x.jid ≠ "on_" ++ ("db_" ++ d.id) ∧ x.jid ≠ "off_" ++ ("db_" ++ d.id)) := by
  refine ⟨?_, ?_, base_no_trigger_ids sched d.id⟩
  · rintro ⟨ha, hr1, hr2⟩
    unfold _add_or_update_job_in_scheduler
    rw [hparse]
    dsimp only
    rw [if_pos ⟨hhr, hmi, hse⟩, if_pos ha, if_pos ⟨hr1, hr2⟩]
    rw [add_job_eq_append _ _
      (fun x hx => (base_no_trigger_ids sched d.id x hx).1)]
    rw [add_job_eq_append _ _ ?side]
    · rw [List.append_assoc]
      rfl
    case side =>
      intro x hx
      rcases List.mem_append.mp hx with hmem | hmem
      · exact (base_no_trigger_ids sched d.id x hmem).2
      · rw [List.mem_singleton.mp hmem]
        exact on_jid_ne_off_jid d.id
  · intro hneg
    unfold _add_or_update_job_in_scheduler
    rw [hparse]
    dsimp only
    rw [if_pos ⟨hhr, hmi, hse⟩]
    by_cases ha : d.is_active = 1
    · rw [if_pos ha, if_neg]
      intro hc
      exact hneg ⟨ha, hc.1, hc.2⟩
    · rw [if_neg ha]

/-- Witness for C5: the §8 record {06:00:00, 15 min, "mon,wed,fri",
active} compiles to the ON trigger at 06:00 and the OFF trigger at 06:15
on the same day set; the same record as a one-shot (repeat_days
"2025-01-01") compiles to zero triggers. -/
theorem c5_schedule_compilation_witness :
    parse_time recMonWedFri.start_time_of_day = some (6, 0, 0)
    ∧ _add_or_update_job_in_scheduler [] recMonWedFri =
        [{ jid := "on_db_7", day_of_week := "mon,wed,fri", hour := 6, minute := 0 },
         { jid := "off_db_7", day_of_week := "mon,wed,fri", hour := 6, minute := 15 }]
    ∧ _add_or_update_job_in_scheduler [] recOneShot = [] := by
  have h1 := c5_schedule_compilation [] recMonWedFri 6 0 0 (by decide)
    (by decide) (by decide) (by decide)
  have h2 := c5_schedule_compilation [] recOneShot 6 0 0 (by decide)
    (by decide) (by decide) (by decide)
  refine ⟨by decide, ?_, ?_⟩
  · exact (h1.1 ⟨by decide, by decide, by decide⟩).trans (by decide)
  · exact (h2.2.1 (by decide)).trans (by decide)

theorem merge_sample_misc (db : ControlState) (p : Payload) :
    (merge_sample db p).critical_low_threshold = db.critical_low_threshold
    ∧ (merge_sample db p).critical_high_threshold = db.critical_high_threshold
    ∧ (merge_sample db p).manual_override_active = db.manual_override_active
    ∧ (merge_sample db p).manual_override_state = db.manual_override_state
    ∧ (merge_sample db p).allow_manual_override_at_any_moisture =
        db.allow_manual_override_at_any_moisture
    ∧ (merge_sample db p).automated_mode_enabled = db.automated_mode_enabled
    ∧ (merge_sample db p).current_schedule_name = db.current_schedule_name
    ∧ (merge_sample db p).schedule_end_time = db.schedule_end_time
    ∧ (merge_sample db p).pump_is_on = (p.pump_status == some "ON") := by
  unfold merge_sample
  simp

theorem control_manual_on_noop (D now : Int) (m lo hi : ℚ) (s : Sys) :
    manual_or_automated_control D now true (some "ON") true m lo hi s = s := by
  unfold manual_or_automated_control
  dsimp only
  simp [truthyStr]

/-- Claim C1: for a telemetry sample with moisture strictly above
critical_high and reported pump status ON — if the safety interlock is
disabled (`allow_manual_override_at_any_moisture = false`), on_message
forces the pump off (exactly one OFF publish and the emergency audit,
nothing else), clears `manual_override_active` and
`manual_override_state`, and performs no manual-override or automated
control for the sample; if instead the interlock is enabled and a manual
override to ON is active, the pump remains ON. -/
theorem c1_emergency_vs_manual_precedence (D now : Int) (p : Payload)
    (s : Sys) (m : ℚ)
    (hm : p.moisture = some (JVal.num m))
    (hhi : m > s.db.critical_high_threshold)
    (hps : p.pump_status = some "ON") :
    (s.db.allow_manual_override_at_any_moisture = false →
       (on_message D now p s).db.pump_is_on = false
       ∧ (on_message D now p s).db.manual_override_active = false
       ∧ (on_message D now p s).db.manual_override_state = none
       ∧ (on_message D now p s).published = s.published ++ ["OFF"]
       ∧ (on_message D now p s).audits = s.audits ++ ["Emergency - Soil Too Wet"])
    ∧ (s.db.allow_manual_override_at_any_moisture = true ∧
        s.db.manual_override_active = true ∧
        s.db.manual_override_state = some "ON" →
       (on_message D now p s).db.pump_is_on = true) := by
  have hmm : (merge_sample s.db p).last_known_moisture = JVal.num m := by
    simp [merge_sample, hm]
  constructor
  · intro hallow
    have hcond : m > (merge_sample s.db p).critical_high_threshold ∧
        (merge_sample s.db p).allow_manual_override_at_any_moisture = false ∧
        (p.pump_status == some "ON") = true :=
      ⟨by simpa [merge_sample] using hhi,
       by simpa [merge_sample] using hallow,
       by simp [hps]⟩
    unfold on_message
    dsimp only
    rw [hmm]
    dsimp only
    rw [if_pos hcond]
    simp [turn_pump_off, moisture_monitor_misc, merge_sample, hps]
  · rintro ⟨h1, h2, h3⟩
    have hneg : ¬(m > (merge_sample s.db p).critical_high_threshold ∧
        (merge_sample s.db p).allow_manual_override_at_any_moisture = false ∧
        (p.pump_status == some "ON") = true) := by
      simp [merge_sample, h1]
    unfold on_message
    dsimp only
    rw [hmm]
    dsimp only
    rw [if_neg hneg]
    simp only [(merge_sample_misc s.db p).2.2.1, (merge_sample_misc s.db p).2.2.2.1,
               h2, h3, hps, beq_self_eq_true]
    rw [control_manual_on_noop]
    split_ifs <;> simp [moisture_monitor_misc, merge_sample_misc, hps]

/-- Witness for C1 at moisture 90 (thresholds 40/80), reported pump ON,
manual override ON: with the interlock disabled the emergency forces the
pump off and clears the override; with the interlock enabled the pump
stays ON. -/
theorem c1_emergency_vs_manual_precedence_witness :
    pOn90.moisture = some (JVal.num 90)
    ∧ (90 : ℚ) > sysManualOnNoInterlock.db.critical_high_threshold
    ∧ (on_message 600 0 pOn90 sysManualOnNoInterlock).db.pump_is_on = false
    ∧ (on_message 600 0 pOn90 sysManualOnNoInterlock).db.manual_override_active = false
    ∧ (on_message 600 0 pOn90 sysManualOnNoInterlock).db.manual_override_state = none
    ∧ (on_message 600 0 pOn90 sysManualOnNoInterlock).published =
        sysManualOnNoInterlock.published ++ ["OFF"]
    ∧ (on_message 600 0 pOn90 sysManualOnNoInterlock).audits =
        sysManualOnNoInterlock.audits ++ ["Emergency - Soil Too Wet"]
    ∧ (on_message 600 0 pOn90 sysManualOn).db.pump_is_on = true := by
  have ha := (c1_emergency_vs_manual_precedence 600 0 pOn90 sysManualOnNoInterlock
    90 (by decide) (by decide) (by decide)).1 (by decide)
  have hb := (c1_emergency_vs_manual_precedence 600 0 pOn90 sysManualOn
    90 (by decide) (by decide) (by decide)).2 ⟨by decide, by decide, by decide⟩
  exact ⟨by decide, by decide, ha.1, ha.2.1, ha.2.2.1, ha.2.2.2.1, ha.2.2.2.2, hb⟩

theorem pumpTransitionAlerts_append (l1 l2 : List Alert) :
    pumpTransitionAlerts (l1 ++ l2) =
      pumpTransitionAlerts l1 ++ pumpTransitionAlerts l2 := by
  unfold pumpTransitionAlerts
  exact List.filter_append l1 l2

theorem pumpTransitionAlerts_singleton (a : Alert) :
    pumpTransitionAlerts [a] =
      if (a.atype == "PUMP_ON" || a.atype == "PUMP_OFF") = true then [a]
      else [] := by
  simp [pumpTransitionAlerts, List.filter_singleton]

/-- Counterexample to claim C9: at the fresh system (pump off, automated
enabled, thresholds 40/80), the moisture-30 sample with reported pump
status OFF makes the automated branch turn the pump on during the sample
— the pump status at the start (OFF) differs from the now-current status
at the end (ON) — yet no PUMP_ON/PUMP_OFF alert is emitted, because the
code compares the old status against the payload's *reported* status
(OFF), not against the current status. -/
theorem c9_transition_alert_counterexample :
    baseSys.db.pump_is_on = false
    ∧ (on_message 600 0 pOff30 baseSys).db.pump_is_on = true
    ∧ pumpTransitionAlerts (on_message 600 0 pOff30 baseSys).alerts = [] := by
  decide

/-- Claim C9 as amended: on the numeric (non-dropped) path, when the
emergency early return is not taken, exactly one PUMP_ON/PUMP_OFF alert
is emitted iff the pump status recorded at the start of the sample
differs from the payload's *reported* pump status (not from the
now-current status after the control branches), typed by the reported
status and tagged with the pre-control mode and the merged moisture; and
the active-schedule bookkeeping is cleared when the reported status is
OFF, the old status was ON, and a schedule name was set. (When the
emergency branch returns early, no transition alert is emitted at
all.) -/
theorem c9_transition_alert_amended (D now : Int) (p : Payload) (s : Sys)
    (m : ℚ)
    (hm : (merge_sample s.db p).last_known_moisture = JVal.num m)
    (hnoemerg : ¬(m > s.db.critical_high_threshold ∧
        s.db.allow_manual_override_at_any_moisture = false ∧
        (p.pump_status == some "ON") = true)) :
    (pumpTransitionAlerts (on_message D now p s).alerts =
       pumpTransitionAlerts s.alerts ++
         (if s.db.pump_is_on != (p.pump_status == some "ON") then
            [{ atype := if (p.pump_status == some "ON") then "PUMP_ON" else "PUMP_OFF",
               severity := "INFO",
               mode := some (get_current_mode (merge_sample s.db p)),
               moist := some (JVal.num m) }]
          else []))
    ∧ (s.db.pump_is_on = true ∧ (p.pump_status == some "ON") = false ∧
        truthyStr s.db.current_schedule_name = true →
        (on_message D now p s).db.current_schedule_name = none
        ∧ (on_message D now p s).db.schedule_end_time = none) := by
  have hneg' : ¬(m > (merge_sample s.db p).critical_high_threshold ∧
      (merge_sample s.db p).allow_manual_override_at_any_moisture = false ∧
      (p.pump_status == some "ON") = true) := by
    rw [(merge_sample_misc s.db p).2.1, (merge_sample_misc s.db p).2.2.2.2.1]
    exact hnoemerg
  constructor
  · unfold on_message
    dsimp only
    rw [hm]
    dsimp only
    rw [if_neg hneg']
    cases hold : s.db.pump_is_on <;> cases hb : p.pump_status == some "ON" <;>
      split_ifs <;>
      simp_all [pumpTransitionAlerts_append, pumpTransitionAlerts_singleton, bne,
                manual_or_automated_control_misc,
                moisture_monitor_pumpTransitionAlerts,
                moisture_monitor_misc, merge_sample_misc]
  · rintro ⟨hh1, hh2, hh3⟩
    unfold on_message
    dsimp only
    rw [hm]
    dsimp only
    rw [if_neg hneg']
    simp [hh1, hh2, hh3, bne, manual_or_automated_control_misc,
          moisture_monitor_misc, merge_sample_misc]

/-- Witness for the amended C9: the moisture-41 sample with reported status
ON against the fresh (pump-off) system yields exactly the one PUMP_ON
alert tagged with the pre-control mode and the merged moisture; and with a
named schedule set and the pump on, a reported-OFF sample clears the
schedule bookkeeping. -/
theorem c9_transition_alert_amended_witness :
    (merge_sample baseSys.db pOn41).last_known_moisture = JVal.num 41
    ∧ pumpTransitionAlerts (on_message 600 0 pOn41 baseSys).alerts =
        pumpTransitionAlerts baseSys.alerts ++
          (if baseSys.db.pump_is_on != (pOn41.pump_status == some "ON") then
             [{ atype := if (pOn41.pump_status == some "ON") then "PUMP_ON"
                         else "PUMP_OFF",
                severity := "INFO",
                mode := some (get_current_mode (merge_sample baseSys.db pOn41)),
                moist := some (JVal.num 41) }]
           else [])
    ∧ (on_message 600 0 pOff50
        { baseSys with
          db := { baseDb with
                  pump_is_on := true,
                  current_schedule_name := some "Morning water" } }).db.current_schedule_name
        = none :=
  ⟨by decide,
   (c9_transition_alert_amended 600 0 pOn41 baseSys 41 (by decide) (by decide)).1,
   ((c9_transition_alert_amended 600 0 pOff50
      { baseSys with
        db := { baseDb with
                pump_is_on := true,
                current_schedule_name := some "Morning water" } }
      50 (by decide) (by decide)).2 ⟨by decide, by decide, by decide⟩).1⟩

end IFS
